import Mathlib

/-!
# Trust Score & Cluster Health Engine — verification development

A shallow embedding of the scoring core of the `ai-credit-network`
repository.  Frontend code (the trust-score gauge, the score-breakdown
component, the shared axios client) is embedded directly from
`src/frontend/src`.  The backend scoring engine (FastAPI services) is not
part of the source tree; the definitions for it are modelled from the
specification, as indicated by their doc comments.

Scores are modelled as rationals (`ℚ`): the JavaScript/Python sources use
IEEE doubles, but every quantity the claims touch is an exact decimal or a
ratio of small integers, where rational arithmetic coincides with the
source semantics.
-/

namespace CreditNet

/-- JavaScript `Math.round`: rounds half toward positive infinity.
Also used (modelled from the spec) as the aggregator's
round-to-nearest-integer step. -/
def roundHalfUp (q : ℚ) : ℤ :=
  ⌊q + 1/2⌋

/-! ## Embedding of `src/frontend/src/components/TrustScoreGauge.jsx` -/

/-- `getScoreColor` from `TrustScoreGauge.jsx`. -/
def getScoreColor (score : ℚ) : String :=
  if score ≥ 700 then "text-success"
  else if score ≥ 500 then "text-warning"
  else "text-danger"

/-- `getScoreLabel` from `TrustScoreGauge.jsx`. -/
def getScoreLabel (score : ℚ) : String :=
  if score ≥ 700 then "Excellent"
  else if score ≥ 500 then "Good"
  else if score ≥ 300 then "Building"
  else "New"

/-- `const percentage = (score / 1000) * 100` from `TrustScoreGauge.jsx`:
the gauge fill percentage. -/
def gaugePercentage (score : ℚ) : ℚ :=
  score / 1000 * 100

/-- The numeric score text rendered by `TrustScoreGauge.jsx`:
`Math.round(score)`. -/
def gaugeDisplayedScore (score : ℚ) : ℤ :=
  roundHalfUp score

/-! ## Embedding of `src/frontend/src/components/TrustScoreBreakdown.jsx` -/

/-- The `components` array of `TrustScoreBreakdown.jsx`:
(key, label, displayed weight in percent). -/
def breakdownComponents : List (String × String × Nat) :=
  [("repayment_history", "Repayment History", 40),
   ("community_tenure", "Community Tenure", 20),
   ("vouch_count", "Vouch Count", 15),
   ("voucher_reliability", "Voucher Quality", 15),
   ("loan_volume", "Loan Volume", 10)]

/-! ## Embedding of `src/frontend/src/services/api.js` -/

/-- The two token entries of `localStorage` that the axios interceptors
read and write. -/
structure TokenStorage where
  access_token : Option String
  refresh_token : Option String
deriving DecidableEq, Repr

/-- Outcome of the `POST /auth/refresh` call the response interceptor
makes: either new tokens, or a failure. -/
inductive RefreshCallResult where
  | ok (access refresh : String)
  | failed
deriving DecidableEq, Repr

/-- What the interceptor finally does with the promise chain. -/
inductive PromiseAction where
  | retryRequest
  | reject
deriving DecidableEq, Repr

/-- Observable outcome of one run of the response interceptor:
the resulting token storage, whether `window.location.href` was set to
`/login`, what happened to the promise, and the request's `_retry` flag. -/
structure InterceptorOutcome where
  storage : TokenStorage
  redirectedToLogin : Bool
  action : PromiseAction
  retryFlag : Bool
deriving DecidableEq, Repr

/-- The response-error interceptor of `src/frontend/src/services/api.js`
(lines 25–55).  `status` is `error.response?.status` (`none` when no
response arrived), `alreadyRetried` is `originalRequest._retry`. -/
def responseInterceptor (status : Option Nat) (alreadyRetried : Bool)
    (storage : TokenStorage) (refreshCall : RefreshCallResult) :
    InterceptorOutcome :=
  if status = some 401 ∧ alreadyRetried = false then
    match refreshCall with
    | .ok a r => ⟨⟨some a, some r⟩, false, .retryRequest, true⟩
    | .failed => ⟨⟨none, none⟩, true, .reject, true⟩
  else ⟨storage, false, .reject, alreadyRetried⟩

/-- `usersAPI.getTrustGraph`'s depth parameter from
`src/frontend/src/services/api.js` line 68: `(userId, depth = 2)`. -/
def getTrustGraphDepth (depth : Option Nat) : Nat :=
  depth.getD 2

/-! ## Event & Relationship Store data model

The backend service layer is absent from the source tree (only its README,
routes and frontend callers are present), so the records below are
modelled from the spec, §3 DATA MODEL. -/

/-- Modelled from the spec: loan status lifecycle
`{pending, approved, disbursed, repaid, defaulted}` (§3). -/
inductive LoanStatus where
  | pending
  | approved
  | disbursed
  | repaid
  | defaulted
deriving DecidableEq, Repr

/-- Modelled from the spec: a Loan record (§3); timestamps and ids are
natural numbers, amounts rationals. -/
structure Loan where
  id : Nat
  borrower : Nat
  community : Nat
  principal : ℚ
  status : LoanStatus
deriving DecidableEq, Repr

/-- Modelled from the spec: a Repayment record
`(loan_id, amount, due_at, paid_at?)` (§3). -/
structure Repayment where
  loan_id : Nat
  amount : ℚ
  due_at : Nat
  paid_at : Option Nat
deriving DecidableEq, Repr

/-- Modelled from the spec: a Membership record
`(user, community, joined_at)` (§3). -/
structure CommunityMembership where
  user : Nat
  community : Nat
  joined_at : Nat
deriving DecidableEq, Repr

/-- Modelled from the spec: an endorsement ("vouch") edge
`(voucher, vouchee, weight, revoked?)` (§3). -/
structure Endorsement where
  voucher : Nat
  vouchee : Nat
  weight : ℚ
  revoked : Bool
deriving DecidableEq, Repr

/-- Modelled from the spec: the enumerable configuration values
`{grace_period_days, tenure_ceiling_months, vouch_ceiling_count,
loan_volume_ceiling_amount}` (§4.1). -/
structure ScoringConfig where
  grace_period_days : Nat
  tenure_ceiling_months : ℚ
  vouch_ceiling_count : ℚ
  loan_volume_ceiling_amount : ℚ
deriving DecidableEq, Repr

/-- Modelled from the spec: the Event & Relationship Store slice the
calculators read (§2, §6), plus each user's latest total_score as read by
the Voucher Reliability calculator (§4.1). -/
structure Store where
  loans : List Loan
  repayments : List Repayment
  memberships : List CommunityMembership
  endorsements : List Endorsement
  latestScores : List (Nat × ℤ)
deriving DecidableEq, Repr

/-! ## Score Component Calculators (modelled from the spec, §4.1) -/

/-- Modelled from the spec: an on-time repayment has
`paid_at ≤ due_at + grace_period` (§4.1, glossary). -/
def isOnTime (grace : Nat) (r : Repayment) : Bool :=
  match r.paid_at with
  | some p => p ≤ r.due_at + grace
  | none => false

/-- Modelled from the spec: Repayment History calculator — on-time ratio
scaled to [0,1000]; neutral default 500 when no scheduled repayments
exist (§4.1). -/
def repaymentHistoryScore (grace : Nat) (reps : List Repayment) : ℚ :=
  if reps.length = 0 then 500
  else 1000 * ((reps.filter (isOnTime grace)).length : ℚ) / (reps.length : ℚ)

/-- Modelled from the spec: Community Tenure calculator — months since the
earliest `joined_at` (a month is 30 days here), linearly scaled against
the tenure ceiling and capped at 1000 (§4.1). -/
def communityTenureScore (cfg : ScoringConfig) (now : Nat)
    (ms : List CommunityMembership) : ℚ :=
  match (ms.map (fun m => m.joined_at)).min? with
  | none => 0
  | some earliest =>
      min 1000 (1000 * (((now - earliest : Nat) : ℚ) / 30) / cfg.tenure_ceiling_months)

/-- Modelled from the spec: the currently active (non-revoked) endorsement
edges with `u` as vouchee (§4.3a). -/
def activeEndorsementsOf (es : List Endorsement) (u : Nat) : List Endorsement :=
  es.filter (fun e => e.vouchee == u && !e.revoked)

/-- Modelled from the spec: Vouch Count calculator — active endorsement
count linearly scaled against the vouch ceiling, capped at 1000 (§4.1). -/
def vouchCountScore (cfg : ScoringConfig) (es : List Endorsement) (u : Nat) : ℚ :=
  min 1000 (1000 * ((activeEndorsementsOf es u).length : ℚ) / cfg.vouch_ceiling_count)

/-- Modelled from the spec: an endorser's own latest total_score, or the
cold-start 300 if the endorser has none yet (§4.1). -/
def endorserScore (latest : List (Nat × ℤ)) (v : Nat) : ℚ :=
  match latest.lookup v with
  | some s => (s : ℚ)
  | none => 300

/-- Modelled from the spec: Voucher Reliability calculator — the
weight-weighted average of each active endorser's latest total_score
(§4.1); 0 when there is no active endorsement weight. -/
def voucherReliabilityScore (latest : List (Nat × ℤ)) (es : List Endorsement)
    (u : Nat) : ℚ :=
  let active := activeEndorsementsOf es u
  let tw := (active.map (fun e => e.weight)).sum
  if tw = 0 then 0
  else (active.map (fun e => e.weight * endorserScore latest e.voucher)).sum / tw

/-- Modelled from the spec: Loan Volume calculator — total principal of
fully repaid loans linearly scaled against the volume ceiling, capped at
1000 (§4.1). -/
def loanVolumeScore (cfg : ScoringConfig) (ls : List Loan) (u : Nat) : ℚ :=
  let repaid := ls.filter (fun l => l.borrower == u && l.status == LoanStatus.repaid)
  min 1000 (1000 * (repaid.map (fun l => l.principal)).sum / cfg.loan_volume_ceiling_amount)

/-! ## Score Aggregator (modelled from the spec, §4.2; weights match the
percentages displayed by `TrustScoreBreakdown.jsx`) -/

/-- Fixed aggregator weight: repayment 0.40. -/
def wRepayment : ℚ := 40 / 100

/-- Fixed aggregator weight: community tenure 0.20. -/
def wTenure : ℚ := 20 / 100

/-- Fixed aggregator weight: vouch count 0.15. -/
def wVouchCount : ℚ := 15 / 100

/-- Fixed aggregator weight: voucher reliability 0.15. -/
def wVoucherReliability : ℚ := 15 / 100

/-- Fixed aggregator weight: loan volume 0.10. -/
def wLoanVolume : ℚ := 10 / 100

/-- Modelled from the spec: the weighted sum of the five sub-scores
(§4.2). -/
def weightedTotal (r t v vr lv : ℚ) : ℚ :=
  r * wRepayment + t * wTenure + v * wVouchCount + vr * wVoucherReliability +
    lv * wLoanVolume

/-- Modelled from the spec: clamp an integer score to [0,1000] (§4.2). -/
def clampScore (z : ℤ) : ℤ :=
  max 0 (min 1000 z)

/-- Modelled from the spec: the aggregated total — weighted sum, rounded
to the nearest integer, clamped to [0,1000] (§4.2). -/
def aggregateScore (r t v vr lv : ℚ) : ℤ :=
  clampScore (roundHalfUp (weightedTotal r t v vr lv))

/-- Modelled from the spec: the fixed cold-start score (§3, glossary). -/
def COLD_START_SCORE : ℤ := 300

/-- The loans with `u` as borrower. -/
def userLoans (s : Store) (u : Nat) : List Loan :=
  s.loans.filter (fun l => l.borrower == u)

/-- The memberships of user `u`. -/
def userMemberships (s : Store) (u : Nat) : List CommunityMembership :=
  s.memberships.filter (fun m => m.user == u)

/-- The endorsement edges touching `u` at all, as vouchee or voucher. -/
def userEndorsements (s : Store) (u : Nat) : List Endorsement :=
  s.endorsements.filter (fun e => e.vouchee == u || e.voucher == u)

/-- The repayments belonging to `u`'s loans. -/
def userRepayments (s : Store) (u : Nat) : List Repayment :=
  s.repayments.filter (fun r => (userLoans s u).any (fun l => l.id == r.loan_id))

/-- Modelled from the spec: the cold-start test — the user has no loans,
no memberships, and no endorsements at all (§4.2). -/
def isColdStart (s : Store) (u : Nat) : Bool :=
  (userLoans s u).isEmpty && (userMemberships s u).isEmpty &&
    (userEndorsements s u).isEmpty

/-- Modelled from the spec: the Score Aggregator (§4.2) — short-circuits
to the cold-start score for a user with no history, otherwise the
clamped, rounded weighted sum of the five sub-scores. -/
def computeScore (cfg : ScoringConfig) (now : Nat) (s : Store) (u : Nat) : ℤ :=
  if isColdStart s u then COLD_START_SCORE
  else
    aggregateScore
      (repaymentHistoryScore cfg.grace_period_days (userRepayments s u))
      (communityTenureScore cfg now (userMemberships s u))
      (vouchCountScore cfg s.endorsements u)
      (voucherReliabilityScore s.latestScores s.endorsements u)
      (loanVolumeScore cfg s.loans u)

/-! ## Snapshots, content hash, and the recomputation engine
(modelled from the spec, §3, §4.5, §4.6) -/

/-- Modelled from the spec: a ScoreSnapshot — per-component raw values,
the weighted total, and the deterministic content hash (§3, §4.2). -/
structure ScoreSnapshot where
  user_id : Nat
  computed_at : Nat
  raw_repayment : ℚ
  raw_tenure : ℚ
  raw_vouch_count : ℚ
  raw_voucher_reliability : ℚ
  raw_loan_volume : ℚ
  total_score : ℤ
  content_hash : ℤ
deriving DecidableEq, Repr, Inhabited

/-- Encode a rational as its reduced numerator and denominator, for the
canonical serialization. -/
def encodeQ (q : ℚ) : List ℤ :=
  [q.num, (q.den : ℤ)]

/-- Modelled from the spec: the canonical serialization over exactly the
snapshot's component values (raw and weighted contribution), the weight
table, and the total (§4.6) — and nothing else, so the content hash does
not depend on `user_id` or `computed_at`. -/
def canonicalSerialization (r t v vr lv : ℚ) (total : ℤ) : List ℤ :=
  total ::
    (encodeQ r ++ encodeQ (r * wRepayment) ++
     encodeQ t ++ encodeQ (t * wTenure) ++
     encodeQ v ++ encodeQ (v * wVouchCount) ++
     encodeQ vr ++ encodeQ (vr * wVoucherReliability) ++
     encodeQ lv ++ encodeQ (lv * wLoanVolume) ++
     encodeQ wRepayment ++ encodeQ wTenure ++ encodeQ wVouchCount ++
     encodeQ wVoucherReliability ++ encodeQ wLoanVolume)

/-- Modelled from the spec: a deterministic content digest over the
canonical serialization (§4.6); a polynomial rolling hash stands in for
the cryptographic digest. -/
def contentHash (l : List ℤ) : ℤ :=
  l.foldl (fun a x => (a * 31 + x) % 1000000007) 7

/-- Modelled from the spec: one full recomputation — the pure function
from (user id, store state) to a snapshot carrying its content hash
(§4.5, §9 design notes). -/
def computeSnapshot (cfg : ScoringConfig) (now : Nat) (s : Store) (u : Nat) :
    ScoreSnapshot :=
  let r := repaymentHistoryScore cfg.grace_period_days (userRepayments s u)
  let t := communityTenureScore cfg now (userMemberships s u)
  let v := vouchCountScore cfg s.endorsements u
  let vr := voucherReliabilityScore s.latestScores s.endorsements u
  let lv := loanVolumeScore cfg s.loans u
  let total := computeScore cfg now s u
  ⟨u, now, r, t, v, vr, lv, total,
    contentHash (canonicalSerialization r t v vr lv total)⟩

/-- Modelled from the spec: engine state — the (read-only) store plus the
append-only snapshot history (§3, §5). -/
structure EngineState where
  store : Store
  history : List ScoreSnapshot
deriving Repr

/-- Modelled from the spec: one recomputation run for user `u`, appending
its snapshot to the history and leaving the store untouched (§4.5). -/
def recomputeStep (cfg : ScoringConfig) (now : Nat) (st : EngineState)
    (u : Nat) : EngineState :=
  ⟨st.store, st.history ++ [computeSnapshot cfg now st.store u]⟩

/-- Run recomputation for `u` twice in a row from store `s` with no
intervening events, and return the two appended snapshots. -/
def recomputeTwice (cfg : ScoringConfig) (now : Nat) (s : Store) (u : Nat) :
    ScoreSnapshot × ScoreSnapshot :=
  let st2 := recomputeStep cfg now (recomputeStep cfg now ⟨s, []⟩ u) u
  (st2.history.getD 0 default, st2.history.getD 1 default)

/-! ## Endorsement Graph Reader (modelled from the spec, §4.3) -/

/-- A directed endorsement-graph edge, keyed by user ids. -/
structure GraphEdge where
  src : Nat
  dst : Nat
deriving DecidableEq, Repr

/-- The out-neighbors of `u`. -/
def neighborsOf (edges : List GraphEdge) (u : Nat) : List Nat :=
  (edges.filter (fun e => e.src == u)).map (fun e => e.dst)

/-- The next traversal frontier: every out-neighbor of the current
frontier that the visited-set does not already contain, deduplicated. -/
def newFrontier (edges : List GraphEdge) (visited frontier : List Nat) :
    List Nat :=
  (((frontier.map (neighborsOf edges)).flatten).filter
    (fun v => !(visited.contains v))).dedup

/-- Modelled from the spec: bounded-depth breadth-first traversal with a
visited-set keyed by node id (§4.3b, §9).  One recursive step is one hop:
the new frontier is every unvisited out-neighbor of the old frontier. -/
def traverseFrom : Nat → List GraphEdge → List Nat → List Nat → List Nat
  | 0, _, visited, _ => visited
  | d + 1, edges, visited, frontier =>
      traverseFrom d edges (visited ++ newFrontier edges visited frontier)
        (newFrontier edges visited frontier)

/-- Modelled from the spec: the nodes reached from `root` in at most `d`
hops (§4.3b). -/
def subgraphNodes (edges : List GraphEdge) (root : Nat) (d : Nat) : List Nat :=
  traverseFrom d edges [root] [root]

/-- The edges induced by a node set. -/
def inducedEdges (edges : List GraphEdge) (nodes : List Nat) : List GraphEdge :=
  edges.filter (fun e => nodes.contains e.src && nodes.contains e.dst)

/-- Modelled from the spec: the induced subgraph (nodes and edges)
returned for visualization (§4.3b). -/
def trustSubgraph (edges : List GraphEdge) (root : Nat) (d : Nat) :
    List Nat × List GraphEdge :=
  let ns := subgraphNodes edges root d
  (ns, inducedEdges edges ns)

/-- `ReachLe edges root d v`: `v` is reachable from `root` along edges in
at most `d` hops. -/
inductive ReachLe (edges : List GraphEdge) (root : Nat) : Nat → Nat → Prop
  | refl (d : Nat) : ReachLe edges root d root
  | step (d u v : Nat) : ReachLe edges root d u → GraphEdge.mk u v ∈ edges →
      ReachLe edges root (d + 1) v

/-- Validation errors of the query layer (§7). -/
inductive QueryError where
  | validationError
  | notFound
deriving DecidableEq, Repr

/-- Modelled from the spec: the endorsement-subgraph query — depth outside
`[1, maxDepth]` is a validation error rejected before any graph walk
(§4.3b, §7). -/
def subgraphQuery (maxDepth : Nat) (edges : List GraphEdge) (root : Nat)
    (d : Int) : Except QueryError (List Nat × List GraphEdge) :=
  if d ≤ 0 ∨ d > (maxDepth : Int) then Except.error QueryError.validationError
  else Except.ok (trustSubgraph edges root d.toNat)

/-! ## Cluster Health classification (modelled from the spec, §4.4) -/

/-- Cluster health status values (§3). -/
inductive ClusterStatus where
  | stable
  | growing
  | fragile
deriving DecidableEq, Repr

/-- Modelled from the spec: classify a cluster's average score —
`avg_score ≥ 700 → stable; ≥ 500 → growing; otherwise fragile`, boundary
values in the higher tier (§4.4). -/
def classifyClusterStatus (avg : ℚ) : ClusterStatus :=
  if avg ≥ 700 then ClusterStatus.stable
  else if avg ≥ 500 then ClusterStatus.growing
  else ClusterStatus.fragile

/-! ## Helper lemmas -/

/-- Membership in `neighborsOf` is exactly the edge relation. -/
theorem mem_neighborsOf {edges : List GraphEdge} {u v : Nat} :
    v ∈ neighborsOf edges u ↔ GraphEdge.mk u v ∈ edges := by
  simp only [neighborsOf, List.mem_map, List.mem_filter, beq_iff_eq]
  constructor
  · rintro ⟨e, ⟨he, hsrc⟩, hdst⟩
    cases e
    subst hsrc
    subst hdst
    exact he
  · intro h
    exact ⟨⟨u, v⟩, ⟨h, rfl⟩, rfl⟩

/-- Every node of the next frontier is one hop from the old frontier. -/
theorem mem_newFrontier {edges : List GraphEdge} {visited frontier : List Nat}
    {w : Nat} (hw : w ∈ newFrontier edges visited frontier) :
    ∃ u ∈ frontier, GraphEdge.mk u w ∈ edges := by
  rw [newFrontier, List.mem_dedup, List.mem_filter] at hw
  obtain ⟨hw1, _⟩ := hw
  rw [List.mem_flatten] at hw1
  obtain ⟨l, hl, hwl⟩ := hw1
  rw [List.mem_map] at hl
  obtain ⟨u, hu, rfl⟩ := hl
  exact ⟨u, hu, mem_neighborsOf.mp hwl⟩

/-- A reachability bound may be relaxed by one. -/
theorem reachLe_succ {edges : List GraphEdge} {root d v : Nat}
    (h : ReachLe edges root d v) : ReachLe edges root (d + 1) v := by
  induction h with
  | refl d => exact ReachLe.refl (d + 1)
  | step d u v _ hm ih => exact ReachLe.step (d + 1) u v ih hm

/-- Invariant of the bounded traversal: if every visited and frontier node
is reachable in at most `m` hops, everything the traversal returns with
`d` remaining rounds is reachable in at most `m + d` hops. -/
theorem traverseFrom_reachLe (edges : List GraphEdge) (root : Nat) :
    ∀ (d m : Nat) (visited frontier : List Nat),
      (∀ v ∈ visited, ReachLe edges root m v) →
      (∀ v ∈ frontier, ReachLe edges root m v) →
      ∀ v ∈ traverseFrom d edges visited frontier, ReachLe edges root (m + d) v := by
  intro d
  induction d with
  | zero =>
      intro m visited frontier hv _ v hm
      rw [traverseFrom] at hm
      simpa using hv v hm
  | succ d ih =>
      intro m visited frontier hv hf v hm
      rw [traverseFrom] at hm
      have key : ∀ w ∈ newFrontier edges visited frontier,
          ReachLe edges root (m + 1) w := by
        intro w hw
        obtain ⟨u, hu, he⟩ := mem_newFrontier hw
        exact ReachLe.step m u w (hf u hu) he
      have hv2 : ∀ w ∈ visited ++ newFrontier edges visited frontier,
          ReachLe edges root (m + 1) w := by
        intro w hw
        rcases List.mem_append.mp hw with h | h
        · exact reachLe_succ (hv w h)
        · exact key w h
      have heq : m + (d + 1) = (m + 1) + d := by omega
      rw [heq]
      exact ih (m + 1) _ _ hv2 key v hm

/-! ## Claims -/

/-- C1.  The aggregator's fixed weights are repayment 0.40, tenure 0.20,
vouch count 0.15, voucher reliability 0.15 and loan volume 0.10, matching
the percentages displayed by `TrustScoreBreakdown.jsx`; they sum to
exactly 1; the total is the weighted sum of the five sub-scores, rounded
to the nearest integer and clamped to [0,1000]; and on sub-scores
(900, 500, 500, 750, 400) the weighted sum is 687.5, which rounds to
688. -/
theorem aggregator_weights_and_example :
    (wRepayment + wTenure + wVouchCount + wVoucherReliability + wLoanVolume = 1) ∧
    (breakdownComponents.map (fun c => ((c.2.2 : ℚ) / 100)) =
      [wRepayment, wTenure, wVouchCount, wVoucherReliability, wLoanVolume]) ∧
    weightedTotal 900 500 500 750 400 = 1375 / 2 ∧
    aggregateScore 900 500 500 750 400 = 688 ∧
    (∀ r t v vr lv : ℚ,
      aggregateScore r t v vr lv =
        clampScore (roundHalfUp (weightedTotal r t v vr lv)) ∧
      0 ≤ aggregateScore r t v vr lv ∧ aggregateScore r t v vr lv ≤ 1000) := by
  refine ⟨?_, ?_, ?_, ?_, ?_⟩
  · norm_num [wRepayment, wTenure, wVouchCount, wVoucherReliability, wLoanVolume]
  · norm_num [breakdownComponents, wRepayment, wTenure, wVouchCount,
      wVoucherReliability, wLoanVolume]
  · norm_num [weightedTotal, wRepayment, wTenure, wVouchCount,
      wVoucherReliability, wLoanVolume]
  · unfold aggregateScore clampScore roundHalfUp weightedTotal wRepayment
      wTenure wVouchCount wVoucherReliability wLoanVolume
    norm_num
  · intro r t v vr lv
    refine ⟨rfl, ?_, ?_⟩
    · unfold aggregateScore clampScore
      omega
    · unfold aggregateScore clampScore
      omega

/-- C2.  The qualitative tier label is "Excellent" for scores ≥ 700,
"Good" on [500, 700), "Building" on [300, 500), and "New" below 300. -/
theorem score_tier_labels (s : ℚ) :
    (700 ≤ s → getScoreLabel s = "Excellent") ∧
    (500 ≤ s ∧ s < 700 → getScoreLabel s = "Good") ∧
    (300 ≤ s ∧ s < 500 → getScoreLabel s = "Building") ∧
    (s < 300 → getScoreLabel s = "New") := by
  refine ⟨fun h => ?_, fun h => ?_, fun h => ?_, fun h => ?_⟩ <;>
    unfold getScoreLabel
  · rw [if_pos h]
  · rw [if_neg (by linarith [h.2] : ¬ s ≥ 700), if_pos h.1]
  · rw [if_neg (by linarith [h.2] : ¬ s ≥ 700),
      if_neg (by linarith [h.2] : ¬ s ≥ 500), if_pos h.1]
  · rw [if_neg (by linarith : ¬ s ≥ 700), if_neg (by linarith : ¬ s ≥ 500),
      if_neg (by linarith : ¬ s ≥ 300)]

/-- Witness for C2 at the concrete scores 750, 600, 400 and 100. -/
theorem score_tier_labels_witness :
    getScoreLabel 750 = "Excellent" ∧ getScoreLabel 600 = "Good" ∧
    getScoreLabel 400 = "Building" ∧ getScoreLabel 100 = "New" :=
  ⟨(score_tier_labels 750).1 (by decide),
   (score_tier_labels 600).2.1 ⟨by decide, by decide⟩,
   (score_tier_labels 400).2.2.1 ⟨by decide, by decide⟩,
   (score_tier_labels 100).2.2.2 (by decide)⟩

/-- C3.  A user with no loans, no memberships and no endorsements at all
gets exactly the cold-start score 300 from the aggregator's
short-circuit. -/
theorem cold_start_score (cfg : ScoringConfig) (now : Nat) (s : Store)
    (u : Nat) (hl : userLoans s u = []) (hm : userMemberships s u = [])
    (he : userEndorsements s u = []) :
    computeScore cfg now s u = 300 := by
  unfold computeScore
  rw [if_pos]
  · rfl
  · simp [isColdStart, hl, hm, he]

/-- Witness for C3: a brand-new user in an empty store scores 300. -/
theorem cold_start_score_witness :
    computeScore ⟨3, 24, 10, 100000⟩ 0 ⟨[], [], [], [], []⟩ 0 = 300 :=
  cold_start_score ⟨3, 24, 10, 100000⟩ 0 ⟨[], [], [], [], []⟩ 0 rfl rfl rfl

/-- C4.  Cluster status is "stable" for avg_score ≥ 700, "growing" on
[500, 700) and "fragile" below 500; in particular 700 → stable,
699.99 → growing, 500 → growing and 499.99 → fragile. -/
theorem cluster_status_boundaries (avg : ℚ) :
    (700 ≤ avg → classifyClusterStatus avg = ClusterStatus.stable) ∧
    (500 ≤ avg ∧ avg < 700 → classifyClusterStatus avg = ClusterStatus.growing) ∧
    (avg < 500 → classifyClusterStatus avg = ClusterStatus.fragile) ∧
    classifyClusterStatus 700 = ClusterStatus.stable ∧
    classifyClusterStatus (69999 / 100) = ClusterStatus.growing ∧
    classifyClusterStatus 500 = ClusterStatus.growing ∧
    classifyClusterStatus (49999 / 100) = ClusterStatus.fragile := by
  refine ⟨fun h => ?_, fun h => ?_, fun h => ?_, ?_, ?_, ?_, ?_⟩ <;>
    unfold classifyClusterStatus
  · rw [if_pos h]
  · rw [if_neg (by linarith [h.2] : ¬ avg ≥ 700), if_pos h.1]
  · rw [if_neg (by linarith : ¬ avg ≥ 700), if_neg (by linarith : ¬ avg ≥ 500)]
  · norm_num
  · norm_num
  · norm_num
  · norm_num

/-- Witness for C4 at the concrete averages 800, 650 and 450. -/
theorem cluster_status_boundaries_witness :
    classifyClusterStatus 800 = ClusterStatus.stable ∧
    classifyClusterStatus 650 = ClusterStatus.growing ∧
    classifyClusterStatus 450 = ClusterStatus.fragile :=
  ⟨(cluster_status_boundaries 800).1 (by decide),
   (cluster_status_boundaries 650).2.1 ⟨by decide, by decide⟩,
   (cluster_status_boundaries 450).2.2.1 (by decide)⟩

/-- C5.  The bounded-depth traversal terminates on every graph (it is a
total function recursing on the depth), every node it returns is
reachable from the root in at most `d` hops, and on the cyclic graph
A→B, B→A traversed from A at depth 3 it returns exactly the nodes
`[A, B]` and both edges. -/
theorem traversal_cycle_safety :
    (∀ (edges : List GraphEdge) (root d : Nat),
      ∀ v ∈ subgraphNodes edges root d, ReachLe edges root d v) ∧
    trustSubgraph [⟨0, 1⟩, ⟨1, 0⟩] 0 3 = ([0, 1], [⟨0, 1⟩, ⟨1, 0⟩]) := by
  constructor
  · intro edges root d v hv
    have := traverseFrom_reachLe edges root d 0 [root] [root]
      (by intro v hv; simp at hv; subst hv; exact ReachLe.refl 0)
      (by intro v hv; simp at hv; subst hv; exact ReachLe.refl 0)
      v hv
    simpa using this
  · decide

/-- Witness for C5: on the one-edge graph A→B, B is returned at depth 1
and is reachable in one hop; the cyclic-graph equation holds. -/
theorem traversal_cycle_safety_witness :
    ReachLe [⟨0, 1⟩] 0 1 1 ∧
    trustSubgraph [⟨0, 1⟩, ⟨1, 0⟩] 0 3 = ([0, 1], [⟨0, 1⟩, ⟨1, 0⟩]) :=
  ⟨traversal_cycle_safety.1 [⟨0, 1⟩] 0 1 1 (by decide),
   traversal_cycle_safety.2⟩

/-- C6.  The frontend trust-graph call defaults the depth to 2, and the
subgraph query rejects any depth outside `[1, maxDepth]` with a
validation error whose value is independent of the graph — i.e. decided
before any graph walk. -/
theorem subgraph_depth_validation :
    getTrustGraphDepth none = 2 ∧
    (∀ (maxDepth : Nat) (edges : List GraphEdge) (root : Nat) (d : Int),
      d ≤ 0 ∨ d > (maxDepth : Int) →
        subgraphQuery maxDepth edges root d =
          Except.error QueryError.validationError ∧
        ∀ (edges2 : List GraphEdge) (root2 : Nat),
          subgraphQuery maxDepth edges root d =
            subgraphQuery maxDepth edges2 root2 d) := by
  constructor
  · rfl
  · intro maxDepth edges root d h
    constructor
    · unfold subgraphQuery
      rw [if_pos h]
    · intro edges2 root2
      unfold subgraphQuery
      rw [if_pos h, if_pos h]

/-- Witness for C6: the default depth is 2, and depth 0 on a concrete
graph is rejected. -/
theorem subgraph_depth_validation_witness :
    getTrustGraphDepth none = 2 ∧
    subgraphQuery 5 [⟨0, 1⟩] 0 0 = Except.error QueryError.validationError :=
  ⟨subgraph_depth_validation.1,
   (subgraph_depth_validation.2 5 [⟨0, 1⟩] 0 0 (Or.inl (by decide))).1⟩

/-- C7.  Recomputing a user's score twice over an unchanged store
produces two snapshots with identical content hashes: (1) two
back-to-back runs through the engine append snapshots hashing alike, and
(2) the content hash covers only component values, weights and total —
not `computed_at` — so even two runs at different wall-clock times hash
alike whenever the underlying data (including the only time-dependent
component input, the tenure sub-score) is unchanged. -/
theorem recompute_idempotent_hash (cfg : ScoringConfig) (s : Store)
    (u : Nat) :
    (∀ now : Nat,
      (recomputeTwice cfg now s u).1.content_hash =
        (recomputeTwice cfg now s u).2.content_hash) ∧
    (∀ now1 now2 : Nat,
      communityTenureScore cfg now1 (userMemberships s u) =
        communityTenureScore cfg now2 (userMemberships s u) →
      (computeSnapshot cfg now1 s u).content_hash =
        (computeSnapshot cfg now2 s u).content_hash) := by
  constructor
  · intro now
    rfl
  · intro now1 now2 h
    simp only [computeSnapshot, computeScore]
    rw [h]

/-- Witness for C7: a user with one active endorsement and no
memberships, recomputed twice at time 100 and then once more at time
200 — all content hashes agree. -/
theorem recompute_idempotent_hash_witness :
    ((recomputeTwice ⟨3, 24, 10, 100000⟩ 100
        ⟨[], [], [], [⟨1, 0, 1, false⟩], [(1, 800)]⟩ 0).1.content_hash =
      (recomputeTwice ⟨3, 24, 10, 100000⟩ 100
        ⟨[], [], [], [⟨1, 0, 1, false⟩], [(1, 800)]⟩ 0).2.content_hash) ∧
    (computeSnapshot ⟨3, 24, 10, 100000⟩ 100
        ⟨[], [], [], [⟨1, 0, 1, false⟩], [(1, 800)]⟩ 0).content_hash =
      (computeSnapshot ⟨3, 24, 10, 100000⟩ 200
        ⟨[], [], [], [⟨1, 0, 1, false⟩], [(1, 800)]⟩ 0).content_hash :=
  ⟨(recompute_idempotent_hash ⟨3, 24, 10, 100000⟩
      ⟨[], [], [], [⟨1, 0, 1, false⟩], [(1, 800)]⟩ 0).1 100,
   (recompute_idempotent_hash ⟨3, 24, 10, 100000⟩
      ⟨[], [], [], [⟨1, 0, 1, false⟩], [(1, 800)]⟩ 0).2 100 200 rfl⟩

/-- C8.  Appending one additional on-time repayment (with its scheduled
entry), holding the grace period and everything else fixed, never
decreases the Repayment History sub-score. -/
theorem repayment_score_monotone (grace : Nat) (reps : List Repayment)
    (r : Repayment) (h : isOnTime grace r = true) :
    repaymentHistoryScore grace reps ≤
      repaymentHistoryScore grace (reps ++ [r]) := by
  rcases Nat.eq_zero_or_pos reps.length with h0 | hpos
  · have hnil : reps = [] := List.length_eq_zero.mp h0
    subst hnil
    unfold repaymentHistoryScore
    simp [h]
    norm_num
  · have h1 : ¬ (reps.length = 0) := Nat.pos_iff_ne_zero.mp hpos
    have h2 : ¬ ((reps ++ [r]).length = 0) := by simp
    unfold repaymentHistoryScore
    rw [if_neg h1, if_neg h2]
    have hlen : (reps ++ [r]).length = reps.length + 1 := by simp
    have hfil : ((reps ++ [r]).filter (isOnTime grace)).length =
        (reps.filter (isOnTime grace)).length + 1 := by
      simp [List.filter_append, h]
    rw [hlen, hfil]
    have ha : ((reps.filter (isOnTime grace)).length : ℚ) ≤ (reps.length : ℚ) := by
      exact_mod_cast List.length_filter_le (isOnTime grace) reps
    have hn : (0 : ℚ) < (reps.length : ℚ) := by exact_mod_cast hpos
    have hn1 : (0 : ℚ) < ((reps.length : ℚ) + 1) := by linarith
    push_cast
    rw [div_le_div_iff₀ hn hn1]
    ring_nf
    nlinarith [ha, hn]

/-- Witness for C8: one late repayment, then an on-time one is appended;
the sub-score does not decrease. -/
theorem repayment_score_monotone_witness :
    isOnTime 3 ⟨0, 10, 8, some 8⟩ = true ∧
    repaymentHistoryScore 3 [⟨0, 10, 5, some 20⟩] ≤
      repaymentHistoryScore 3 ([⟨0, 10, 5, some 20⟩] ++ [⟨0, 10, 8, some 8⟩]) :=
  ⟨by decide,
   repayment_score_monotone 3 [⟨0, 10, 5, some 20⟩] ⟨0, 10, 8, some 8⟩ (by decide)⟩

/-- C9 counterexample.  A 401 on a not-yet-retried request whose refresh
call succeeds does NOT clear the tokens and does NOT redirect to /login:
the interceptor stores the refreshed tokens and retries the request. -/
theorem interceptor_401_counterexample :
    ¬ ((responseInterceptor (some 401) false ⟨some "tokA", some "tokR"⟩
          (RefreshCallResult.ok "newA" "newR")).storage.access_token = none ∧
       (responseInterceptor (some 401) false ⟨some "tokA", some "tokR"⟩
          (RefreshCallResult.ok "newA" "newR")).storage.refresh_token = none ∧
       (responseInterceptor (some 401) false ⟨some "tokA", some "tokR"⟩
          (RefreshCallResult.ok "newA" "newR")).redirectedToLogin = true) := by
  decide

/-- C9 (amended).  On a 401 for a not-yet-retried request the interceptor
first attempts a token refresh: on success it stores the new tokens and
retries the request without redirecting; only when the refresh itself
fails does it remove both tokens and redirect to /login before rejecting.
A 401 on an already-retried request, or any non-401 error, is rejected
without touching storage. -/
theorem interceptor_401_behavior :
    (∀ (st : TokenStorage) (a r : String),
      responseInterceptor (some 401) false st (RefreshCallResult.ok a r) =
        ⟨⟨some a, some r⟩, false, PromiseAction.retryRequest, true⟩) ∧
    (∀ st : TokenStorage,
      responseInterceptor (some 401) false st RefreshCallResult.failed =
        ⟨⟨none, none⟩, true, PromiseAction.reject, true⟩) ∧
    (∀ (status : Option Nat) (st : TokenStorage) (rc : RefreshCallResult),
      responseInterceptor status true st rc =
        ⟨st, false, PromiseAction.reject, true⟩) ∧
    (∀ (status : Option Nat) (st : TokenStorage) (rc : RefreshCallResult),
      status ≠ some 401 →
        responseInterceptor status false st rc =
          ⟨st, false, PromiseAction.reject, false⟩) := by
  refine ⟨fun st a r => rfl, fun st => rfl, ?_, ?_⟩
  · intro status st rc
    simp [responseInterceptor]
  · intro status st rc h
    simp [responseInterceptor, h]

/-- Witness for C9's amended theorem: a 500 response passes through with
storage untouched and no redirect. -/
theorem interceptor_401_behavior_witness :
    responseInterceptor (some 500) false ⟨some "a", some "r"⟩
        RefreshCallResult.failed =
      ⟨⟨some "a", some "r"⟩, false, PromiseAction.reject, false⟩ :=
  interceptor_401_behavior.2.2.2 (some 500) ⟨some "a", some "r"⟩
    RefreshCallResult.failed (by decide)

/-- C10.  The gauge's label function is total and unclamped: every score
below 300 (negative included) is labelled "New" with the raw rounded
score displayed, and every score above 1000 is labelled "Excellent" with
a fill percentage strictly above 100. -/
theorem gauge_unclamped (s : ℚ) :
    (s < 300 → getScoreLabel s = "New" ∧ gaugeDisplayedScore s = roundHalfUp s) ∧
    (1000 < s → getScoreLabel s = "Excellent" ∧ 100 < gaugePercentage s) := by
  constructor
  · intro h
    refine ⟨?_, rfl⟩
    unfold getScoreLabel
    rw [if_neg (by linarith : ¬ s ≥ 700), if_neg (by linarith : ¬ s ≥ 500),
      if_neg (by linarith : ¬ s ≥ 300)]
  · intro h
    constructor
    · unfold getScoreLabel
      rw [if_pos (by linarith : s ≥ 700)]
    · have heq : gaugePercentage s = s / 10 := by
        unfold gaugePercentage
        ring
      rw [heq]
      linarith

/-- Witness for C10 at the concrete scores −50 and 1200. -/
theorem gauge_unclamped_witness :
    (getScoreLabel (-50) = "New" ∧
      gaugeDisplayedScore (-50) = roundHalfUp (-50)) ∧
    (getScoreLabel 1200 = "Excellent" ∧ 100 < gaugePercentage 1200) :=
  ⟨(gauge_unclamped (-50)).1 (by decide), (gauge_unclamped 1200).2 (by decide)⟩

end CreditNet
